import Mathlib

set_option autoImplicit false

/-!
Shallow embedding of the event-aggregator ingestion, validation and fetcher
code (src/lib/services/ingestion.ts, src/lib/validation/event-validation.ts,
src/lib/fetchers/ticketmaster.ts, src/lib/fetchers/eventbrite.ts).

Conventions used throughout:
* JavaScript timestamps (`Date.getTime()`) are modelled as `Int`, in
  milliseconds since the Unix epoch.
* `new Date(string)` parsing is an environment primitive; it is modelled as an
  explicit oracle `DateParse : String → Option Int` (`none` models a `Date`
  whose `getTime()` is `NaN`).
* JavaScript `undefined` for optional fields is modelled as `Option`.
* Numbers that the code treats as decimal values (coordinates, day/hour
  differences) are modelled as `ℚ`; the source's floating point rounding play
  no role in the claims settled here, and every comparison performed by the
  code on those values is exact at the inputs considered.
-/

/-- `new Date(s).getTime()` oracle: `some t` for a parseable date string
(epoch milliseconds), `none` when the resulting `Date` is invalid (`NaN`). -/
def DateParse : Type := String → Option Int

/-! ## Ingestion service (src/lib/services/ingestion.ts) -/

/-- `NormalizedEvent` (src/lib/fetchers/ticketmaster.ts).  TypeScript optional
string fields become `Option String`. -/
structure NormalizedEvent where
  uid : String
  source : String
  title : String
  description : Option String
  startUtc : String
  endUtc : Option String
  venueName : Option String
  address : Option String
  url : Option String
  lastSeenAtUtc : String
deriving Repr, DecidableEq

/-- `parseDate` (ingestion.ts lines 8-19): `undefined` or `""` (both falsy)
give `null`; otherwise `new Date(value)`, `null` on `NaN`. -/
def parseDate (jsDate : DateParse) (value : Option String) : Option Int :=
  match value with
  | none => none
  | some s => if s = "" then none else jsDate s

/-- JavaScript `String.prototype.trim` (environment primitive), implemented
structurally over the character list: whitespace stripped from both ends. -/
def jsTrim (s : String) : String :=
  String.mk (((s.toList.dropWhile Char.isWhitespace).reverse.dropWhile
    Char.isWhitespace).reverse)

/-- JavaScript `String.prototype.toLowerCase` (ASCII range), structurally. -/
def strToLower (s : String) : String :=
  String.mk (s.toList.map Char.toLower)

/-- JavaScript `String.prototype.startsWith`, structurally. -/
def strStartsWith (s p : String) : Bool :=
  decide (p.toList <+: s.toList)

/-- JavaScript `String.prototype.endsWith`, structurally. -/
def strEndsWith (s p : String) : Bool :=
  decide (p.toList <:+ s.toList)

/-- `sanitizeOptional` (ingestion.ts lines 21-28): falsy (`undefined`/`""`)
gives `null`; otherwise trim, and `null` when the trimmed string is empty. -/
def sanitizeOptional (value : Option String) : Option String :=
  match value with
  | none => none
  | some s =>
    if s = "" then none
    else
      let trimmed := jsTrim s
      if trimmed = "" then none else some trimmed

/-- `UpsertSummary` (ingestion.ts lines 30-33). -/
structure UpsertSummary where
  inserted : Nat
  updated : Nat
deriving Repr, DecidableEq

/-- A persisted `Event` row (prisma migration `20250924140532_add_models`,
table `Event`).  The surrogate primary key `id` and the engine-managed
timestamps are owned by the storage layer and are not modelled; rows are
addressed by the natural key `(userId, uid)`. -/
structure EventRow where
  userId : String
  uid : String
  source : String
  title : String
  description : Option String
  startUtc : Int
  endUtc : Option Int
  timezone : Option String
  venueName : Option String
  address : Option String
  lat : Option ℚ
  lng : Option ℚ
  category : Option String
  tag : String
  url : Option String
  createdByUser : Bool
  city : Option String
  country : Option String
  status : Option String
  lastSeenAtUtc : Int
deriving Repr, DecidableEq

/-- The `baseData` object built in `upsertTicketmasterEvent` (ingestion.ts
lines 60-69).  A `none` in an optional field models the JavaScript
`undefined` produced by `?? undefined` — in a Prisma `update` such a field is
omitted and the stored value is left unchanged, in a `create` it falls back to
the column default (`NULL`). -/
structure BaseData where
  source : String
  title : String
  description : Option String
  startUtc : Int
  venueName : Option String
  address : Option String
  url : Option String
  lastSeenAtUtc : Int
deriving Repr, DecidableEq

/-- Builds `baseData` from the incoming event and the two parsed dates
(ingestion.ts lines 60-69). -/
def mkBaseData (e : NormalizedEvent) (startUtc lastSeenAtUtc : Int) : BaseData :=
  { source := e.source
    title := (sanitizeOptional (some e.title)).getD "Untitled Event"
    description := sanitizeOptional e.description
    startUtc := startUtc
    venueName := sanitizeOptional e.venueName
    address := sanitizeOptional e.address
    url := sanitizeOptional e.url
    lastSeenAtUtc := lastSeenAtUtc }

/-- The persisted store, modelled as the list of `Event` rows. -/
abbrev Store := List EventRow

/-- `prisma.event.findUnique({ where: { userId_uid: { userId, uid } } })`. -/
def findUnique (store : Store) (userId uid : String) : Option EventRow :=
  store.find? (fun r => r.userId == userId && r.uid == uid)

/-- `prisma.event.update({ where, data: baseData })` applied to one row:
fields present in `baseData` are written, fields that are `undefined`
(`none`) are omitted by Prisma and keep their stored value; every column not
in `baseData` is untouched. -/
def applyUpdate (r : EventRow) (d : BaseData) : EventRow :=
  { r with
    source := d.source
    title := d.title
    description := d.description.or r.description
    startUtc := d.startUtc
    venueName := d.venueName.or r.venueName
    address := d.address.or r.address
    url := d.url.or r.url
    lastSeenAtUtc := d.lastSeenAtUtc }

/-- `prisma.event.update` on the store: rewrites the row(s) matching the
unique key, leaving all other rows alone. -/
def updateStore (store : Store) (userId uid : String) (d : BaseData) : Store :=
  store.map (fun r => if r.userId == userId && r.uid == uid then applyUpdate r d else r)

/-- `prisma.event.create({ data: { userId, uid, ...baseData } })`: columns not
supplied take their schema defaults. -/
def createRow (userId uid : String) (d : BaseData) : EventRow :=
  { userId := userId
    uid := uid
    source := d.source
    title := d.title
    description := d.description
    startUtc := d.startUtc
    endUtc := none
    timezone := none
    venueName := d.venueName
    address := d.address
    lat := none
    lng := none
    category := none
    tag := "Other"
    url := d.url
    createdByUser := false
    city := none
    country := none
    status := none
    lastSeenAtUtc := d.lastSeenAtUtc }

/-- The three outcomes of `upsertTicketmasterEvent` (ingestion.ts line 35). -/
inductive UpsertResult where
  | inserted
  | updated
  | skipped
deriving Repr, DecidableEq

/-- `upsertTicketmasterEvent` (ingestion.ts lines 35-90), returning the
per-event outcome together with the store after the operation. -/
def upsertTicketmasterEvent (jsDate : DateParse) (store : Store)
    (userId : String) (e : NormalizedEvent) : UpsertResult × Store :=
  if e.uid = "" then (.skipped, store)
  else
    match parseDate jsDate (some e.startUtc) with
    | none => (.skipped, store)
    | some startUtc =>
      match parseDate jsDate (some e.lastSeenAtUtc) with
      | none => (.skipped, store)
      | some lastSeenAtUtc =>
        let d := mkBaseData e startUtc lastSeenAtUtc
        match findUnique store userId e.uid with
        | some _ => (.updated, updateStore store userId e.uid d)
        | none => (.inserted, store ++ [createRow userId e.uid d])

/-- `upsertTicketmasterEventsForUser` (ingestion.ts lines 92-113): the
sequential `for` loop over the batch, threading the store and the two
counters. -/
def upsertTicketmasterEventsForUser (jsDate : DateParse) (store : Store)
    (userId : String) (events : List NormalizedEvent) : UpsertSummary × Store :=
  match events with
  | [] => ({ inserted := 0, updated := 0 }, store)
  | e :: rest =>
    let r := upsertTicketmasterEvent jsDate store userId e
    let s := upsertTicketmasterEventsForUser jsDate r.2 userId rest
    match r.1 with
    | .inserted => ({ s.1 with inserted := s.1.inserted + 1 }, s.2)
    | .updated => ({ s.1 with updated := s.1.updated + 1 }, s.2)
    | .skipped => s

/-- The skip condition of `upsertTicketmasterEvent` (ingestion.ts lines
36-51): empty uid, unparseable `startUtc`, or unparseable `lastSeenAtUtc`. -/
def skipCond (jsDate : DateParse) (e : NormalizedEvent) : Prop :=
  e.uid = "" ∨ parseDate jsDate (some e.startUtc) = none ∨
    parseDate jsDate (some e.lastSeenAtUtc) = none

instance (jsDate : DateParse) (e : NormalizedEvent) : Decidable (skipCond jsDate e) := by
  unfold skipCond; infer_instance

/-- An event the ingestion service accepts: non-empty uid and both dates
parseable. -/
def validEvent (jsDate : DateParse) (e : NormalizedEvent) : Prop :=
  ¬ skipCond jsDate e

instance (jsDate : DateParse) (e : NormalizedEvent) : Decidable (validEvent jsDate e) := by
  unfold validEvent; infer_instance

/-- The store holds a row with natural key `(userId, uid)`. -/
def hasKey (store : Store) (userId uid : String) : Prop :=
  ∃ r ∈ store, r.userId = userId ∧ r.uid = uid

instance (store : Store) (userId uid : String) : Decidable (hasKey store userId uid) := by
  unfold hasKey; infer_instance

/-- No two rows of the store share a `(userId, uid)` natural key (the unique
index `Event_userId_uid_key`). -/
def NoDupKeys (store : Store) : Prop :=
  store.Pairwise (fun a b => ¬ (a.userId = b.userId ∧ a.uid = b.uid))

/-! ## Date validation (src/lib/validation/event-validation.ts) -/

/-- Result of `validateDateString` (event-validation.ts lines 94-118). -/
structure DateStringResult where
  isValid : Bool
  error : Option String
  date : Option Int
deriving Repr, DecidableEq

/-- `validateDateString` (event-validation.ts lines 94-118).  The code
computes its bounds from the wall clock as
`new Date(now.getFullYear() ± 2, now.getMonth(), now.getDate())`; that
calendar arithmetic is an environment primitive, so the two computed instants
are abstracted as the parameters `pastBound` and `futureBound` (epoch
milliseconds; about two calendar years before and after now).  `Date`
comparison in JavaScript compares epoch milliseconds. -/
def validateDateString (jsDate : DateParse) (pastBound futureBound : Int)
    (dateString : String) : DateStringResult :=
  if dateString = "" then
    { isValid := false, error := some "Date string is required", date := none }
  else
    match jsDate dateString with
    | none => { isValid := false, error := some "Invalid date format", date := none }
    | some date =>
      if date < pastBound then
        { isValid := false, error := some "Date is too far in the past", date := none }
      else if futureBound < date then
        { isValid := false, error := some "Date is too far in the future", date := none }
      else
        { isValid := true, error := none, date := some date }

/-- Result of `validateEventDuration` (event-validation.ts lines 349-395). -/
structure DurationResult where
  isValid : Bool
  error : Option String
  durationMinutes : Option Int
deriving Repr, DecidableEq

/-- `validateEventDuration` (event-validation.ts lines 349-395).
`durationMinutes` is `Math.floor(durationMs / 60000)`, which coincides with
`Int` floor division.  A missing end date — `undefined` or `""`, both falsy —
is valid with no duration. -/
def validateEventDuration (jsDate : DateParse) (pastBound futureBound : Int)
    (startUtc : String) (endUtc : Option String) : DurationResult :=
  let startValidation := validateDateString jsDate pastBound futureBound startUtc
  if !startValidation.isValid then
    { isValid := false,
      error := some ("Invalid start date: " ++ startValidation.error.getD ""),
      durationMinutes := none }
  else
    match endUtc with
    | none => { isValid := true, error := none, durationMinutes := none }
    | some eu =>
      if eu = "" then { isValid := true, error := none, durationMinutes := none }
      else
        let endValidation := validateDateString jsDate pastBound futureBound eu
        if !endValidation.isValid then
          { isValid := false,
            error := some ("Invalid end date: " ++ endValidation.error.getD ""),
            durationMinutes := none }
        else
          let startDate := startValidation.date.getD 0
          let endDate := endValidation.date.getD 0
          if endDate ≤ startDate then
            { isValid := false, error := some "End date must be after start date",
              durationMinutes := none }
          else
            let durationMinutes := (endDate - startDate) / 60000
            if 10080 < durationMinutes then
              { isValid := false,
                error := some ("Event duration too long: " ++
                  toString (durationMinutes / 60) ++ " hours (max 168 hours)"),
                durationMinutes := none }
            else if durationMinutes < 1 then
              { isValid := false,
                error := some "Event duration too short: must be at least 1 minute",
                durationMinutes := none }
            else
              { isValid := true, error := none, durationMinutes := some durationMinutes }

/-! ## URL validation (src/lib/validation/event-validation.ts lines 619-776)

The WHATWG `URL` class is an environment primitive; `parseURL`, `urlToString`
and the `URLSearchParams` handling in `sortSearch` model it for URLs of the
shape `scheme://host[:port][/path][?query][#fragment]` without userinfo,
IPv6 hosts or percent-encoding — the only shapes the embedded code paths are
applied to.  Hostnames and schemes are lowercased and default ports removed
at parse time, as the primitive does. -/

/-- Substring test (JavaScript `String.prototype.includes`). -/
def strContains (s pattern : String) : Bool :=
  decide (pattern.toList <:+: s.toList)

/-- Digit-string to number (`parseInt` on an all-digit string / the WHATWG
port parser): `none` unless the list is non-empty and all digits. -/
def digitsToNat (cs : List Char) : Option Nat :=
  if cs ≠ [] ∧ cs.all Char.isDigit then
    some (cs.foldl (fun n c => n * 10 + (c.toNat - 48)) 0)
  else none

/-- A parsed `URL` object (the fields the code reads and writes). -/
structure URLRec where
  protocol : String
  hostname : String
  port : String
  pathname : String
  search : String
  hash : String
deriving Repr, DecidableEq

/-- `URLSearchParams` parsing of a `?`-prefixed query string into key/value
pairs: split on `&`, each piece split at its first `=`. -/
def parseQueryPairs (search : String) : List (String × String) :=
  let q := if strStartsWith search "?" then search.toList.drop 1 else search.toList
  (q.splitOn '&').filterMap (fun piece =>
    if piece = [] then none
    else
      let k := piece.takeWhile (fun c => c != '=')
      let rest := piece.drop k.length
      some (String.mk k, String.mk (rest.drop 1)))

/-- Structural join with separator (`Array.prototype.join` /
`URLSearchParams` serialization). -/
def joinWith (sep : String) : List String → String
  | [] => ""
  | [x] => x
  | x :: y :: ys => x ++ sep ++ joinWith sep (y :: ys)

/-- Structural lexicographic comparison on character lists (the code-unit
order `Array.prototype.sort` uses on strings). -/
def lexLe : List Char → List Char → Bool
  | [], _ => true
  | _ :: _, [] => false
  | a :: as, b :: bs => if a < b then true else if b < a then false else lexLe as bs

/-- Insertion of a key into an ascending (lexicographic) list. -/
def insertSorted (k : String) : List String → List String
  | [] => [k]
  | x :: xs => if lexLe k.toList x.toList then k :: x :: xs else x :: insertSorted k xs

/-- Ascending lexicographic sort (the observable behavior of
`Array.prototype.sort` on ASCII keys). -/
def sortKeys (l : List String) : List String :=
  l.foldr insertSorted []

/-- The query-sorting step of `normalizeUrl` (event-validation.ts lines
748-759): keys sorted alphabetically, one entry per key holding the first
value (`URLSearchParams.set` semantics), re-serialized with a leading `?`. -/
def sortSearch (search : String) : String :=
  let pairs := parseQueryPairs search
  let sortedKeys := (sortKeys (pairs.map Prod.fst)).dedup
  let body := joinWith "&"
    (sortedKeys.map (fun k => k ++ "=" ++ ((pairs.lookup k).getD "")))
  if body = "" then "" else "?" ++ body

/-- Model of `new URL(s)` (environment primitive, see the section header):
`none` models the constructor throwing.  Only the `scheme://…` form is
modelled; every string this embedding passes to it has that shape. -/
def parseURL (s : String) : Option URLRec :=
  let chars := s.toList
  let schemeChars := chars.takeWhile (fun c => c != ':')
  let afterScheme := chars.drop schemeChars.length
  if afterScheme.take 3 ≠ [':', '/', '/'] then none
  else if schemeChars = [] || !schemeChars.all (fun c => c.isAlpha) then none
  else
    let scheme := strToLower (String.mk schemeChars)
    let restChars := afterScheme.drop 3
    let authChars := restChars.takeWhile (fun c => c != '/' && c != '?' && c != '#')
    let afterAuth := restChars.drop authChars.length
    let hostChars := authChars.takeWhile (fun c => c != ':')
    let portPart := authChars.drop hostChars.length
    let portRes : Option String :=
      match portPart with
      | [] => some ""
      | _ :: portChars =>
        if portChars = [] then some ""
        else match digitsToNat portChars with
          | none => none
          | some n =>
            if 65535 < n then none
            else if (scheme = "http" && n = 80) || (scheme = "https" && n = 443) then
              some ""
            else some (toString n)
    match portRes with
    | none => none
    | some port =>
      if hostChars = [] then none
      else
        let hostname := strToLower (String.mk hostChars)
        let pathChars := afterAuth.takeWhile (fun c => c != '?' && c != '#')
        let afterPath := afterAuth.drop pathChars.length
        let pathname := if pathChars = [] then "/" else String.mk pathChars
        let searchChars := afterPath.takeWhile (fun c => c != '#')
        let hashChars := afterPath.drop searchChars.length
        let search := if String.mk searchChars = "?" then "" else String.mk searchChars
        let hash := if String.mk hashChars = "#" then "" else String.mk hashChars
        some { protocol := scheme ++ ":", hostname := hostname, port := port,
               pathname := pathname, search := search, hash := hash }

/-- Model of `URL.prototype.toString` for the parsed record. -/
def urlToString (u : URLRec) : String :=
  u.protocol ++ "//" ++ u.hostname ++
    (if u.port != "" then ":" ++ u.port else "") ++
    u.pathname ++ u.search ++ u.hash

/-- The dangerous-scheme denylist (event-validation.ts line 632). -/
def dangerousProtocols : List String :=
  ["javascript:", "data:", "vbscript:", "file:", "ftp:", "gopher:"]

/-- `isSuspiciousUrl` (event-validation.ts lines 690-727): dangerous scheme on
the serialized URL, suspicious substrings in the hostname, or a `.local` /
`.onion` suffix.  The `172.(16-31).` regex is expanded to its sixteen
literal prefixes. -/
def isSuspiciousUrl (url : URLRec) : Bool :=
  let hostname := strToLower url.hostname
  let fullUrl := strToLower (urlToString url)
  dangerousProtocols.any (fun p => strStartsWith fullUrl p) ||
  (["localhost", "127.0.0.1", "0.0.0.0", "192.168.", "10.0.",
    "172.16.", "172.17.", "172.18.", "172.19.", "172.20.", "172.21.",
    "172.22.", "172.23.", "172.24.", "172.25.", "172.26.", "172.27.",
    "172.28.", "172.29.", "172.30.", "172.31.",
    "phishing", "malware", "virus", "scam"].any (fun p => strContains hostname p)) ||
  strEndsWith hostname ".local" || strEndsWith hostname ".onion"

/-- `normalizeUrl` (event-validation.ts lines 730-776): strip default ports,
drop a trailing slash from the path, sort the query, and serialize without a
trailing slash for root URLs. -/
def normalizeUrl (url : URLRec) : String :=
  let url := if url.port = "80" ∧ url.protocol = "http:" then { url with port := "" } else url
  let url := if url.port = "443" ∧ url.protocol = "https:" then { url with port := "" } else url
  let url := if strEndsWith url.pathname "/" then
      { url with pathname := String.mk (url.pathname.toList.dropLast) } else url
  let url := if url.search != "" then { url with search := sortSearch url.search } else url
  let result := url.protocol ++ "//" ++ url.hostname
  let result := if url.port != "" && url.port != "80" && url.port != "443" then
      result ++ ":" ++ url.port else result
  let result := if url.pathname != "" && url.pathname != "/" then
      result ++ url.pathname else result
  let result := if url.search != "" then result ++ url.search else result
  let result := if url.hash != "" then result ++ url.hash else result
  result

/-- Result of `validateUrl` (event-validation.ts line 619). -/
structure UrlResult where
  isValid : Bool
  error : Option String
  normalizedUrl : Option String
deriving Repr, DecidableEq

/-- `validateUrl` (event-validation.ts lines 619-687). -/
def validateUrl (url : String) : UrlResult :=
  if url = "" ∨ jsTrim url = "" then
    { isValid := true, error := none, normalizedUrl := some "" }
  else
    let cleanUrl := jsTrim url
    let cleanUrl := String.mk (cleanUrl.toList.filter
      (fun c => !(c.toNat ≤ 0x1F || c.toNat = 0x7F)))
    if dangerousProtocols.any (fun p => strStartsWith (strToLower cleanUrl) p) then
      { isValid := false, error := some "Dangerous protocol not allowed", normalizedUrl := none }
    else if strStartsWith cleanUrl "://" || strEndsWith cleanUrl "://" ||
        cleanUrl = "http://" || cleanUrl = "https://" ||
        strStartsWith cleanUrl "http://." || strStartsWith cleanUrl "https://." ||
        strContains cleanUrl ".." || strEndsWith cleanUrl ":" then
      { isValid := false, error := some "Invalid URL format", normalizedUrl := none }
    else
      match (if strStartsWith (strToLower cleanUrl) "http://" ||
            strStartsWith (strToLower cleanUrl) "https://" then some cleanUrl
          else if strContains cleanUrl "." || strToLower cleanUrl = "localhost" then
            some ("https://" ++ cleanUrl)
          else none) with
      | none => { isValid := false, error := some "Invalid URL format", normalizedUrl := none }
      | some normalizedUrl =>
        match parseURL normalizedUrl with
        | none => { isValid := false, error := some "Invalid URL format", normalizedUrl := none }
        | some urlObj =>
          if ¬ (urlObj.protocol = "http:" ∨ urlObj.protocol = "https:") then
            { isValid := false, error := some "Only HTTP and HTTPS URLs are allowed",
              normalizedUrl := none }
          else if urlObj.hostname = "" then
            { isValid := false, error := some "Invalid hostname", normalizedUrl := none }
          else if (urlObj.port != "") &&
              (match digitsToNat urlObj.port.toList with
               | none => true
               | some n => decide (n < 1 ∨ 65535 < n)) then
            { isValid := false, error := some "Invalid port number", normalizedUrl := none }
          else if isSuspiciousUrl urlObj then
            { isValid := false, error := some "URL contains suspicious patterns",
              normalizedUrl := none }
          else
            { isValid := true, error := none, normalizedUrl := some (normalizeUrl urlObj) }

/-! ## Coordinate validation (event-validation.ts lines 956-1126) -/

/-- Model of the decimal-place count of `Number.prototype.toString`
(event-validation.ts lines 1044-1053) for values with a finite decimal
expansion: the least number of decimal digits representing the value.  Only
feeds advisory warnings. -/
def getDecimalPlaces (q : ℚ) : Nat :=
  ((List.range 18).find? (fun n => (q * (10 : ℚ) ^ n).den = 1)).getD 18

/-- `roundToPrecision` (event-validation.ts lines 1056-1059);
`Math.round(x)` is `⌊x + 1/2⌋`. -/
def roundToPrecision (q : ℚ) (precision : Nat) : ℚ :=
  (⌊q * (10 : ℚ) ^ precision + 1 / 2⌋ : ℤ) / (10 : ℚ) ^ precision

/-- The known ocean points of `isCoordinateInOcean` (lines 1103-1109). -/
def oceanCoordinates : List (ℚ × ℚ) :=
  [(0, 0), (0, 180), (0, -180), (90, 0), (-90, 0)]

/-- `isCoordinateInOcean` (event-validation.ts lines 1098-1114). -/
def isCoordinateInOcean (lat lng : ℚ) : Bool :=
  oceanCoordinates.any (fun c => decide (|c.1 - lat| < 1) && decide (|c.2 - lng| < 1))

/-- `isCoordinateInUninhabitedArea` (event-validation.ts lines 1117-1126). -/
def isCoordinateInUninhabitedArea (lat lng : ℚ) : Bool :=
  decide (80 < |lat|) || (decide (|lat| < 5) && decide (150 < |lng|))

/-- Result of `checkRealisticCoordinateBounds` (lines 1062-1095). -/
structure CoordBoundsResult where
  isValid : Bool
  error : Option String
  warnings : List String
deriving Repr, DecidableEq

/-- `checkRealisticCoordinateBounds` (event-validation.ts lines 1062-1095):
ocean/uninhabited warnings, a hard error for exactly `(0,0)`, and a
near-poles warning.  On the `(0,0)` early return the collected warnings are
not part of the returned object. -/
def checkRealisticCoordinateBounds (lat lng : ℚ) : CoordBoundsResult :=
  let warnings :=
    (if isCoordinateInOcean lat lng then
      ["Coordinates appear to be in the ocean - please verify location"] else []) ++
    (if isCoordinateInUninhabitedArea lat lng then
      ["Coordinates appear to be in an uninhabited area - please verify location"] else [])
  if lat = 0 ∧ lng = 0 then
    { isValid := false,
      error := some "Coordinates (0,0) are in the ocean and likely incorrect",
      warnings := [] }
  else
    let warnings := warnings ++
      (if 85 < |lat| then
        ["Coordinates are very close to the poles - please verify location"] else [])
    { isValid := true, error := none, warnings := warnings }

/-- Result of `validateCoordinates` (line 956).  `normalized` pairs stay
`Option`-valued componentwise because under `allowPartial` the code forwards
an absent component unchanged. -/
structure CoordResult where
  isValid : Bool
  error : Option String
  warnings : List String
  normalized : Option (Option ℚ × Option ℚ)
deriving Repr, DecidableEq

/-- `validateCoordinates` (event-validation.ts lines 956-1041), with the
`options` object passed as three explicit parameters (defaults
`allowPartial := false`, `precision := 6`, `checkRealisticBounds := true`).
The `NaN`/type guards of lines 983-989 cannot fire in the `ℚ` model. -/
def validateCoordinates (lat lng : Option ℚ) (allowPartial : Bool)
    (precision : Nat) (checkRealisticBounds : Bool) : CoordResult :=
  match lat, lng with
  | none, none => { isValid := true, error := none, warnings := [], normalized := none }
  | some la, some lo =>
    if la < -90 ∨ 90 < la then
      { isValid := false, error := some "Latitude must be between -90 and 90 degrees",
        warnings := [], normalized := none }
    else if lo < -180 ∨ 180 < lo then
      { isValid := false, error := some "Longitude must be between -180 and 180 degrees",
        warnings := [], normalized := none }
    else
      let warnings :=
        (if precision < getDecimalPlaces la then
          ["Latitude has " ++ toString (getDecimalPlaces la) ++
            " decimal places (recommended: " ++ toString precision ++ ")"] else []) ++
        (if precision < getDecimalPlaces lo then
          ["Longitude has " ++ toString (getDecimalPlaces lo) ++
            " decimal places (recommended: " ++ toString precision ++ ")"] else [])
      if checkRealisticBounds then
        let rb := checkRealisticCoordinateBounds la lo
        if rb.isValid = false then
          { isValid := false, error := rb.error, warnings := [], normalized := none }
        else
          { isValid := true, error := none, warnings := warnings ++ rb.warnings,
            normalized := some (some (roundToPrecision la precision),
              some (roundToPrecision lo precision)) }
      else
        { isValid := true, error := none, warnings := warnings,
          normalized := some (some (roundToPrecision la precision),
            some (roundToPrecision lo precision)) }
  | some la, none =>
    if allowPartial = false then
      { isValid := false, error := some "Both latitude and longitude must be provided",
        warnings := [], normalized := none }
    else if la < -90 ∨ 90 < la then
      { isValid := false, error := some "Latitude must be between -90 and 90 degrees",
        warnings := [], normalized := none }
    else
      { isValid := true, error := none,
        warnings := (if precision < getDecimalPlaces la then
          ["Latitude has " ++ toString (getDecimalPlaces la) ++
            " decimal places (recommended: " ++ toString precision ++ ")"] else []),
        normalized := some (some (roundToPrecision la precision), none) }
  | none, some lo =>
    if allowPartial = false then
      { isValid := false, error := some "Both latitude and longitude must be provided",
        warnings := [], normalized := none }
    else if lo < -180 ∨ 180 < lo then
      { isValid := false, error := some "Longitude must be between -180 and 180 degrees",
        warnings := [], normalized := none }
    else
      { isValid := true, error := none,
        warnings := (if precision < getDecimalPlaces lo then
          ["Longitude has " ++ toString (getDecimalPlaces lo) ++
            " decimal places (recommended: " ++ toString precision ++ ")"] else []),
        normalized := some (none, some (roundToPrecision lo precision)) }

/-! ## Business-logic validation (event-validation.ts lines 2646-2892)

`performBusinessLogicValidation` receives data that already passed the Zod
schema parse; that parse is the environment boundary, so a schema-valid event
is represented directly by a `ValidatedEvent` value.  The wall clock
`new Date()` is the explicit parameter `now` (epoch ms), and date parsing is
the `DateParse` oracle.  The `value` payload (typed `any`) carried by some
errors is not modelled. -/

/-- `ValidatedEvent` (the `z.infer` of `EventValidationSchema`,
event-validation.ts lines 4-77). -/
structure ValidatedEvent where
  uid : String
  source : String
  title : String
  description : Option String
  startUtc : String
  endUtc : Option String
  timezone : Option String
  venueName : Option String
  address : Option String
  lat : Option ℚ
  lng : Option ℚ
  category : Option String
  tag : String
  url : Option String
  organizerEmail : Option String
  contactEmail : Option String
  createdByUser : Bool
  city : Option String
  country : Option String
  status : Option String
  lastSeenAtUtc : String
deriving Repr, DecidableEq

/-- `ValidationError` (event-validation.ts lines 2663-2668), without the
`any`-typed `value` payload. -/
structure VError where
  field : String
  code : String
  message : String
deriving Repr, DecidableEq

/-- `ValidationWarning` (event-validation.ts lines 2670-2675). -/
structure VWarning where
  field : String
  code : String
  message : String
  suggestion : Option String
deriving Repr, DecidableEq

/-- JavaScript truthiness of an optional string: `undefined` and `""` are
falsy. -/
def truthyStr : Option String → Bool
  | none => false
  | some s => s != ""

/-- JavaScript truthiness of an optional number: `undefined` and `0` are
falsy (`NaN` does not arise in the `ℚ` model). -/
def truthyNum : Option ℚ → Bool
  | none => false
  | some q => q != 0

/-- `Math.round` (environment primitive): `⌊x + 1/2⌋`. -/
def jsRound (q : ℚ) : Int := ⌊q + 1 / 2⌋

/-- The duration check of `performBusinessLogicValidation` (lines 2759-2788).
Entered only when `endUtc` and `startUtc` are truthy; comparisons of
`durationHours = durationMs / 3600000` against `168` and `0.017` are exact at
integer millisecond durations, and equal `604800000 < durationMs` and
`durationMs < 61200` respectively.  When either date fails to parse the
`NaN` comparisons are all false and nothing is reported. -/
def durationCheck (jsDate : DateParse) (e : ValidatedEvent) :
    List VError × List VWarning :=
  if truthyStr e.endUtc && (e.startUtc != "") then
    match jsDate e.startUtc, jsDate (e.endUtc.getD "") with
    | some st, some en =>
      let durationMs := en - st
      if durationMs < 0 then
        ([{ field := "endUtc", code := "invalid_duration",
            message := "End date must be after start date" }], [])
      else if 604800000 < durationMs then
        ([], [{ field := "endUtc", code := "long_duration",
                message := "Event duration is " ++
                  toString (jsRound ((durationMs : ℚ) / 3600000)) ++ " hours (" ++
                  toString (jsRound ((durationMs : ℚ) / 3600000 / 24)) ++ " days)",
                suggestion := some "Consider breaking this into multiple events if appropriate" }])
      else if durationMs < 61200 then
        ([], [{ field := "endUtc", code := "short_duration",
                message := "Event duration is less than 1 minute",
                suggestion := some "Please verify the end time is correct" }])
      else ([], [])
    | _, _ => ([], [])
  else ([], [])

/-- The start-date distance check of `performBusinessLogicValidation` (lines
2790-2819).  `daysDifference = (start - now) / 86400000` compared against
`-365`, `-30` and `730` is exact at integer milliseconds and equals the
millisecond comparisons used here; an unparseable start (`NaN`) reports
nothing. -/
def dateCheck (jsDate : DateParse) (now : Int) (e : ValidatedEvent) :
    List VError × List VWarning :=
  match jsDate e.startUtc with
  | none => ([], [])
  | some st =>
    let ddMs := st - now
    let pastPart : List VError × List VWarning :=
      if ddMs < -365 * 86400000 then
        ([{ field := "startUtc", code := "too_far_past",
            message := "Event start date is more than 1 year in the past" }], [])
      else if ddMs < -30 * 86400000 then
        ([], [{ field := "startUtc", code := "past_event",
                message := "Event start date is in the past",
                suggestion := some "This may be a completed event" }])
      else ([], [])
    let futurePart : List VWarning :=
      if 730 * 86400000 < ddMs then
        [{ field := "startUtc", code := "far_future",
           message := "Event start date is more than 2 years in the future",
           suggestion := some "Please verify the date is correct" }]
      else []
    (pastPart.1, pastPart.2 ++ futurePart)

/-- The title checks (lines 2821-2841). -/
def titleCheck (e : ValidatedEvent) : List VWarning :=
  if e.title != "" then
    let titleLower := strToLower e.title
    (if strContains titleLower "test" || strContains titleLower "example" ||
        strContains titleLower "sample" then
      [{ field := "title", code := "suspicious_title",
         message := "Event title appears to be a test or example",
         suggestion := some "Please verify this is a real event" }]
    else []) ++
    (if e.title.length < 3 then
      [{ field := "title", code := "short_title",
         message := "Event title is very short",
         suggestion := some "Consider adding more descriptive details" }]
    else [])
  else []

/-- The missing-location check (lines 2843-2851): all four location fields
falsy (note `lat = 0` / `lng = 0` count as missing). -/
def locationCheck (e : ValidatedEvent) : List VWarning :=
  if !truthyStr e.venueName && !truthyStr e.address &&
      !truthyNum e.lat && !truthyNum e.lng then
    [{ field := "location", code := "missing_location",
       message := "No location information provided",
       suggestion := some "Consider adding venue name, address, or coordinates" }]
  else []

/-- The incomplete-coordinates check (lines 2853-2861), exactly as coded:
JavaScript truthiness, so a coordinate equal to `0` counts as absent. -/
def coordsCheck (e : ValidatedEvent) : List VError :=
  if (truthyNum e.lat && !truthyNum e.lng) ||
      (!truthyNum e.lat && truthyNum e.lng) then
    [{ field := "coordinates", code := "incomplete_coordinates",
       message := "Both latitude and longitude must be provided together" }]
  else []

/-- The URL protocol check (lines 2863-2878): a non-parsing URL is swallowed
by the `catch`. -/
def urlProtocolCheck (e : ValidatedEvent) : List VError :=
  if truthyStr e.url then
    match parseURL (e.url.getD "") with
    | none => []
    | some urlObj =>
      if ¬ (urlObj.protocol = "http:" ∨ urlObj.protocol = "https:") then
        [{ field := "url", code := "invalid_protocol",
           message := "URL must use HTTP or HTTPS protocol" }]
      else []
  else []

/-- The duplicate-email check (lines 2880-2889). -/
def emailCheck (e : ValidatedEvent) : List VWarning :=
  if truthyStr e.organizerEmail && truthyStr e.contactEmail &&
      (e.organizerEmail == e.contactEmail) then
    [{ field := "contactEmail", code := "duplicate_email",
       message := "Organizer and contact emails are the same",
       suggestion := some "Consider using different email addresses if appropriate" }]
  else []

/-- `performBusinessLogicValidation` (event-validation.ts lines 2752-2892):
the checks above, with errors and warnings accumulated in source order. -/
def performBusinessLogicValidation (jsDate : DateParse) (now : Int)
    (e : ValidatedEvent) : List VError × List VWarning :=
  let dur := durationCheck jsDate e
  let date := dateCheck jsDate now e
  (dur.1 ++ date.1 ++ coordsCheck e ++ urlProtocolCheck e,
   dur.2 ++ date.2 ++ titleCheck e ++ locationCheck e ++ emailCheck e)

/-- `DetailedValidationResult` (lines 2677-2688) without the derived
`summary` block. -/
structure DetailedValidationResult where
  isValid : Bool
  errors : List VError
  warnings : List VWarning
  data : Option ValidatedEvent
deriving Repr, DecidableEq

/-- `validateEventDataDetailed` (event-validation.ts lines 2691-2749) after a
successful schema parse: business-logic validation decides acceptance
(`isValid` iff no errors), and `data` is populated only on acceptance. -/
def validateEventDataDetailed (jsDate : DateParse) (now : Int)
    (e : ValidatedEvent) : DetailedValidationResult :=
  let bv := performBusinessLogicValidation jsDate now e
  { isValid := bv.1.isEmpty, errors := bv.1, warnings := bv.2,
    data := if bv.1.isEmpty then some e else none }

/-! ## Provider adapters (src/lib/fetchers) -/

/-- The fate of one adapter call's environment interaction: an exception
thrown anywhere inside the `try` block, a non-2xx response, or a parsed JSON
body together with the wall-clock `seenAt = new Date().toISOString()`. -/
inductive FetchOutcome (ρ : Type) where
  | throws
  | notOk (status : Nat)
  | ok (data : ρ) (seenAt : String)
deriving Repr, DecidableEq

/-- A Ticketmaster venue (ticketmaster.ts lines 24-37); nested
`a?.b` optional chains are flattened into optional fields. -/
structure TMVenue where
  name : Option String
  addressLine1 : Option String
  addressLine2 : Option String
  cityName : Option String
  stateName : Option String
  postalCode : Option String
  countryName : Option String
deriving Repr, DecidableEq

/-- `dates?.start?.dateTime` and `dates?.end?.dateTime` of a Ticketmaster
event (lines 45-52), flattened. -/
structure TMDates where
  startDateTime : Option String
  endDateTime : Option String
deriving Repr, DecidableEq

/-- A Ticketmaster event (ticketmaster.ts lines 39-56). -/
structure TMEvent where
  id : Option String
  name : Option String
  info : Option String
  description : Option String
  url : Option String
  dates : Option TMDates
  venues : List TMVenue
deriving Repr, DecidableEq

/-- `TicketmasterResponse` with `_embedded?.events ?? []` collapsed. -/
structure TMResponse where
  events : List TMEvent
deriving Repr, DecidableEq

/-- The per-event mapping of `fetchTicketmasterEvents` (ticketmaster.ts lines
96-119). -/
def normalizeTicketmasterEvent (seenAt : String) (event : TMEvent) : NormalizedEvent :=
  let venue := event.venues.head?
  let addressParts :=
    [((venue.bind TMVenue.addressLine1).getD ""),
     ((venue.bind TMVenue.addressLine2).getD ""),
     ((venue.bind TMVenue.cityName).getD ""),
     ((venue.bind TMVenue.stateName).getD ""),
     ((venue.bind TMVenue.postalCode).getD ""),
     ((venue.bind TMVenue.countryName).getD "")].filter
      (fun part => (part != "") && (jsTrim part != ""))
  { uid := event.id.getD ""
    source := "ticketmaster"
    title := event.name.getD ""
    description := event.description.or event.info
    startUtc := (event.dates.bind TMDates.startDateTime).getD ""
    endUtc := event.dates.bind TMDates.endDateTime
    venueName := venue.bind TMVenue.name
    address := if 0 < addressParts.length then some (joinWith ", " addressParts) else none
    url := event.url
    lastSeenAtUtc := seenAt }

/-- `fetchTicketmasterEvents` (ticketmaster.ts lines 64-124) as an
`Except`-valued computation: a `.error` would be a propagated exception, and
the trailing `catch` (lines 120-123) turns every exception from the `try`
block into a logged empty result.  A missing or empty (falsy) API key
returns `[]` before the `try`. -/
def fetchTicketmasterEvents (apiKey : Option String)
    (outcome : FetchOutcome TMResponse) (_city : String) (_keyword : Option String) :
    Except String (List NormalizedEvent) :=
  match apiKey with
  | none => .ok []
  | some key =>
    if key = "" then .ok []
    else
      let tryBlock : Except String (List NormalizedEvent) :=
        match outcome with
        | .throws => .error "Failed to fetch Ticketmaster events"
        | .notOk _ => .ok []
        | .ok data seenAt => .ok (data.events.map (normalizeTicketmasterEvent seenAt))
      match tryBlock with
      | .error _ => .ok []
      | .ok events => .ok events

/-- An Eventbrite event (eventbrite.ts lines 14-36), nested
`a?.b` chains flattened; `null` and `undefined` both collapse to `none`. -/
structure EBEvent where
  id : Option String
  nameText : Option String
  descriptionText : Option String
  startUtc : Option String
  endUtc : Option String
  url : Option String
  venueName : Option String
  venueAddressDisplay : Option String
deriving Repr, DecidableEq

/-- `EventbriteResponse` with `events ?? []` collapsed. -/
structure EBResponse where
  events : List EBEvent
deriving Repr, DecidableEq

/-- The per-event mapping of `fetchEventbriteEvents` (eventbrite.ts lines
73-90). -/
def normalizeEventbriteEvent (seenAt : String) (event : EBEvent) : NormalizedEvent :=
  let venueName := event.venueName.getD ""
  let address := event.venueAddressDisplay.getD ""
  { uid := event.id.getD ""
    source := "eventbrite"
    title := event.nameText.getD ""
    description := some (event.descriptionText.getD "")
    startUtc := event.startUtc.getD ""
    endUtc := some (event.endUtc.getD "")
    venueName := some venueName
    address := some address
    url := some (event.url.getD "")
    lastSeenAtUtc := seenAt }

/-- `fetchEventbriteEvents` (eventbrite.ts lines 44-95), like
`fetchTicketmasterEvents`. -/
def fetchEventbriteEvents (apiKey : Option String)
    (outcome : FetchOutcome EBResponse) (_keyword : Option String) :
    Except String (List NormalizedEvent) :=
  match apiKey with
  | none => .ok []
  | some key =>
    if key = "" then .ok []
    else
      let tryBlock : Except String (List NormalizedEvent) :=
        match outcome with
        | .throws => .error "Failed to fetch Eventbrite events"
        | .notOk _ => .ok []
        | .ok data seenAt => .ok (data.events.map (normalizeEventbriteEvent seenAt))
      match tryBlock with
      | .error _ => .ok []
      | .ok events => .ok events

/-- A fetch environment in which the adapter cannot obtain data: missing or
empty API key, an exception, or a non-ok response. -/
def fetchFailure {ρ : Type} (apiKey : Option String) (outcome : FetchOutcome ρ) : Prop :=
  apiKey = none ∨ apiKey = some "" ∨ outcome = .throws ∨ ∃ s, outcome = .notOk s

/-! ### Concrete instances used by witnesses and counterexamples -/

/-- Concrete `±2 calendar years` bounds used with `demoDateParse` (all demo
dates lie between them). -/
def demoPastBound : Int := 1600000000000

/-- See `demoPastBound`. -/
def demoFutureBound : Int := 1800000000000

/-- A concrete `new Date` oracle fixing the parses of the few date strings the
witnesses use (epoch milliseconds); every other string is unparseable. -/
def demoDateParse : DateParse := fun s =>
  if s = "2024-06-01T10:00:00Z" then some 1717236000000
  else if s = "2024-06-01T10:01:00Z" then some 1717236060000
  else if s = "2024-06-02T10:00:00Z" then some 1717322400000
  else none

/-- A concrete well-formed Ticketmaster event. -/
def demoEvent : NormalizedEvent :=
  { uid := "tm-1"
    source := "ticketmaster"
    title := "Sunset Concert"
    description := none
    startUtc := "2024-06-02T10:00:00Z"
    endUtc := none
    venueName := some "Main Hall"
    address := none
    url := none
    lastSeenAtUtc := "2024-06-01T10:00:00Z" }

/-- A second well-formed event with a distinct uid. -/
def demoEvent2 : NormalizedEvent :=
  { demoEvent with uid := "tm-2", title := "Morning Market" }

/-- An event the ingestion service must skip: its `startUtc` does not parse. -/
def demoBadEvent : NormalizedEvent :=
  { demoEvent with uid := "tm-bad", startUtc := "not-a-date" }

/-- The moment `2024-06-01T10:00:00Z`, used as `now` in business-logic
validation witnesses. -/
def demoNow : Int := 1717236000000

/-- A concrete schema-valid event (post-parse) used by the business-logic
witnesses; its start date equals `demoNow`. -/
def demoValidatedEvent : ValidatedEvent :=
  { uid := "evt-1"
    source := "manual"
    title := "Team Offsite"
    description := none
    startUtc := "2024-06-01T10:00:00Z"
    endUtc := none
    timezone := some "UTC"
    venueName := some "HQ"
    address := none
    lat := none
    lng := none
    category := none
    tag := "Work"
    url := none
    organizerEmail := none
    contactEmail := none
    createdByUser := true
    city := none
    country := none
    status := some "confirmed"
    lastSeenAtUtc := "2024-06-01T10:00:00Z" }

/-- A persisted row for `("user-1", "tm-1")` whose `source` is `"manual"`. -/
def demoRowManual : EventRow :=
  { userId := "user-1"
    uid := "tm-1"
    source := "manual"
    title := "Old Title"
    description := some "old description"
    startUtc := 1700000000000
    endUtc := some 1700003600000
    timezone := some "UTC"
    venueName := some "Old Venue"
    address := some "1 Old St"
    lat := some 10
    lng := some 20
    category := some "music"
    tag := "Social"
    url := some "https://old.example.com"
    createdByUser := true
    city := some "Dallas"
    country := some "United States"
    status := some "confirmed"
    lastSeenAtUtc := 1700000000000 }

/-! ## Theorems -/

/-! ### Structural lemmas about the ingestion service -/

theorem applyUpdate_keys (r : EventRow) (d : BaseData) :
    (applyUpdate r d).userId = r.userId ∧ (applyUpdate r d).uid = r.uid :=
  ⟨rfl, rfl⟩

theorem findUnique_eq_none_iff (store : Store) (u k : String) :
    findUnique store u k = none ↔ ¬ hasKey store u k := by
  unfold findUnique hasKey
  rw [List.find?_eq_none]
  constructor
  · rintro h ⟨r, hr, h1, h2⟩
    exact h r hr (by simp [h1, h2])
  · intro h r hr hp
    simp only [Bool.and_eq_true, beq_iff_eq] at hp
    exact h ⟨r, hr, hp.1, hp.2⟩

theorem hasKey_of_findUnique (store : Store) (u k : String) (r : EventRow)
    (h : findUnique store u k = some r) : hasKey store u k := by
  by_contra hn
  rw [← findUnique_eq_none_iff] at hn
  rw [h] at hn
  exact Option.noConfusion hn

theorem findUnique_isSome_of_hasKey (store : Store) (u k : String)
    (h : hasKey store u k) : ∃ r, findUnique store u k = some r := by
  rcases hf : findUnique store u k with _ | r
  · exact absurd h ((findUnique_eq_none_iff store u k).mp hf)
  · exact ⟨r, rfl⟩

theorem hasKey_updateStore (store : Store) (u k : String) (d : BaseData) (u' k' : String) :
    hasKey (updateStore store u k d) u' k' ↔ hasKey store u' k' := by
  unfold hasKey updateStore
  constructor
  · rintro ⟨r', hr', h1, h2⟩
    rw [List.mem_map] at hr'
    obtain ⟨r, hr, hfr⟩ := hr'
    refine ⟨r, hr, ?_, ?_⟩ <;>
    · subst hfr
      split at h1 <;> split at h2 <;> simp_all [applyUpdate]
  · rintro ⟨r, hr, h1, h2⟩
    refine ⟨if r.userId == u && r.uid == k then applyUpdate r d else r,
      List.mem_map.mpr ⟨r, hr, rfl⟩, ?_, ?_⟩ <;>
    · split <;> simp_all [applyUpdate]

theorem hasKey_append_single (store : Store) (row : EventRow) (u k : String) :
    hasKey (store ++ [row]) u k ↔ hasKey store u k ∨ (row.userId = u ∧ row.uid = k) := by
  unfold hasKey
  constructor
  · rintro ⟨r, hr, h1, h2⟩
    rcases List.mem_append.mp hr with h | h
    · exact Or.inl ⟨r, h, h1, h2⟩
    · rcases List.mem_singleton.mp h with rfl
      exact Or.inr ⟨h1, h2⟩
  · rintro (⟨r, hr, h1, h2⟩ | ⟨h1, h2⟩)
    · exact ⟨r, List.mem_append.mpr (Or.inl hr), h1, h2⟩
    · exact ⟨row, List.mem_append.mpr (Or.inr (List.mem_singleton.mpr rfl)), h1, h2⟩

theorem createRow_keys (u k : String) (d : BaseData) :
    (createRow u k d).userId = u ∧ (createRow u k d).uid = k :=
  ⟨rfl, rfl⟩

/-- Full case analysis of a single `upsertTicketmasterEvent` call. -/
theorem upsert_cases (jsDate : DateParse) (store : Store) (u : String) (e : NormalizedEvent) :
    (skipCond jsDate e ∧ upsertTicketmasterEvent jsDate store u e = (.skipped, store)) ∨
    (validEvent jsDate e ∧ ∃ sU sL,
      parseDate jsDate (some e.startUtc) = some sU ∧
      parseDate jsDate (some e.lastSeenAtUtc) = some sL ∧
      ((findUnique store u e.uid = none ∧
        upsertTicketmasterEvent jsDate store u e =
          (.inserted, store ++ [createRow u e.uid (mkBaseData e sU sL)])) ∨
       (∃ r, findUnique store u e.uid = some r ∧
        upsertTicketmasterEvent jsDate store u e =
          (.updated, updateStore store u e.uid (mkBaseData e sU sL))))) := by
  unfold upsertTicketmasterEvent
  by_cases h1 : e.uid = ""
  · exact Or.inl ⟨Or.inl h1, by simp [h1]⟩
  · rcases h2 : parseDate jsDate (some e.startUtc) with _ | sU
    · exact Or.inl ⟨Or.inr (Or.inl h2), by simp [h1, h2]⟩
    · rcases h3 : parseDate jsDate (some e.lastSeenAtUtc) with _ | sL
      · exact Or.inl ⟨Or.inr (Or.inr h3), by simp [h1, h2, h3]⟩
      · right
        refine ⟨?_, sU, sL, rfl, rfl, ?_⟩
        · rintro (hc | hc | hc) <;> simp_all
        · rcases h4 : findUnique store u e.uid with _ | r
          · exact Or.inl ⟨rfl, by simp [h1, h2, h3, h4]⟩
          · exact Or.inr ⟨r, rfl, by simp [h1, h2, h3, h4]⟩

theorem upsert_result_skipped_iff (jsDate : DateParse) (store : Store)
    (u : String) (e : NormalizedEvent) :
    (upsertTicketmasterEvent jsDate store u e).1 = .skipped ↔ skipCond jsDate e := by
  rcases upsert_cases jsDate store u e with ⟨hs, he⟩ | ⟨hv, _, _, _, _, ⟨_, he⟩ | ⟨_, _, he⟩⟩
  · rw [he]; simpa using hs
  · rw [he]; simpa using hv
  · rw [he]; simpa using hv

/-- The two counters plus the number of events meeting the skip condition
account for the whole batch. -/
theorem batch_counts (jsDate : DateParse) (u : String) :
    ∀ (events : List NormalizedEvent) (store : Store),
    (upsertTicketmasterEventsForUser jsDate store u events).1.inserted +
      (upsertTicketmasterEventsForUser jsDate store u events).1.updated +
      events.countP (fun e => decide (skipCond jsDate e)) = events.length := by
  intro events
  induction events with
  | nil => intro store; simp [upsertTicketmasterEventsForUser]
  | cons e rest ih =>
    intro store
    have hcount : (e :: rest).countP (fun e => decide (skipCond jsDate e)) =
        rest.countP (fun e => decide (skipCond jsDate e)) +
          (if skipCond jsDate e then 1 else 0) := by
      by_cases h : skipCond jsDate e <;> simp [List.countP_cons, h]
    rcases upsert_cases jsDate store u e with ⟨hs, he⟩ |
        ⟨hv, sU, sL, _, _, ⟨_, he⟩ | ⟨_, _, he⟩⟩
    · simp only [upsertTicketmasterEventsForUser, he, hcount, if_pos hs,
        List.length_cons]
      have := ih store
      omega
    · simp only [upsertTicketmasterEventsForUser, he, hcount, if_neg hv,
        List.length_cons]
      have := ih (store ++ [createRow u e.uid (mkBaseData e sU sL)])
      omega
    · simp only [upsertTicketmasterEventsForUser, he, hcount, if_neg hv,
        List.length_cons]
      have := ih (updateStore store u e.uid (mkBaseData e sU sL))
      omega

/-- First pass over a batch of valid, pairwise-distinct, not-yet-persisted
events: everything is inserted, and the keys of the resulting store are the
old keys plus the new `(u, uid)` pairs. -/
theorem batch_fresh (jsDate : DateParse) (u : String) :
    ∀ (events : List NormalizedEvent) (store : Store),
    (∀ e ∈ events, validEvent jsDate e) →
    (events.map NormalizedEvent.uid).Nodup →
    (∀ e ∈ events, ¬ hasKey store u e.uid) →
    (upsertTicketmasterEventsForUser jsDate store u events).1 =
      ⟨events.length, 0⟩ ∧
    (∀ u' k', hasKey (upsertTicketmasterEventsForUser jsDate store u events).2 u' k' ↔
      hasKey store u' k' ∨ (u' = u ∧ k' ∈ events.map NormalizedEvent.uid)) := by
  intro events
  induction events with
  | nil =>
    intro store _ _ _
    refine ⟨rfl, fun u' k' => ?_⟩
    simp [upsertTicketmasterEventsForUser]
  | cons e rest ih =>
    intro store hv hnd hfresh
    have hve : validEvent jsDate e := hv e (List.mem_cons_self e rest)
    have hfe : ¬ hasKey store u e.uid := hfresh e (List.mem_cons_self e rest)
    rcases upsert_cases jsDate store u e with ⟨hs, _⟩ |
        ⟨_, sU, sL, _, _, ⟨_, he⟩ | ⟨r, hr, _⟩⟩
    · exact absurd hs hve
    · -- inserted
      set row := createRow u e.uid (mkBaseData e sU sL) with hrow
      have hrest : ∀ e' ∈ rest, ¬ hasKey (store ++ [row]) u e'.uid := by
        intro e' he' hk
        rcases (hasKey_append_single store row u e'.uid).mp hk with hk | ⟨_, hk2⟩
        · exact hfresh e' (List.mem_cons_of_mem e he') hk
        · have : e.uid = e'.uid := hk2
          have hne : e'.uid ∈ rest.map NormalizedEvent.uid :=
            List.mem_map.mpr ⟨e', he', rfl⟩
          rw [List.map_cons, List.nodup_cons] at hnd
          exact hnd.1 (this ▸ hne)
      have hndr : (rest.map NormalizedEvent.uid).Nodup := by
        rw [List.map_cons, List.nodup_cons] at hnd
        exact hnd.2
      obtain ⟨ihs, ihk⟩ := ih (store ++ [row])
        (fun e' he' => hv e' (List.mem_cons_of_mem e he')) hndr hrest
      constructor
      · simp only [upsertTicketmasterEventsForUser, he, ihs, List.length_cons]
      · intro u' k'
        simp only [upsertTicketmasterEventsForUser, he]
        rw [ihk u' k', hasKey_append_single]
        constructor
        · rintro ((h | ⟨h1, h2⟩) | ⟨h1, h2⟩)
          · exact Or.inl h
          · have hk : k' = e.uid := by rw [← h2]; rfl
            refine Or.inr ⟨h1.symm, ?_⟩
            rw [hk]
            exact List.mem_map.mpr ⟨e, List.mem_cons_self e rest, rfl⟩
          · refine Or.inr ⟨h1, ?_⟩
            rw [List.map_cons]
            exact List.mem_cons_of_mem _ h2
        · rintro (h | ⟨h1, h2⟩)
          · exact Or.inl (Or.inl h)
          · rcases List.mem_map.mp h2 with ⟨e', he', heq⟩
            rcases List.mem_cons.mp he' with rfl | he'
            · refine Or.inl (Or.inr ⟨?_, ?_⟩)
              · rw [h1]; rfl
              · rw [← heq]; rfl
            · exact Or.inr ⟨h1, List.mem_map.mpr ⟨e', he', heq⟩⟩
    · exact absurd (hasKey_of_findUnique store u e.uid r hr) hfe

/-- Second pass over a batch of valid events whose keys are all already
persisted: everything is updated and the key set is unchanged. -/
theorem batch_present (jsDate : DateParse) (u : String) :
    ∀ (events : List NormalizedEvent) (store : Store),
    (∀ e ∈ events, validEvent jsDate e) →
    (∀ e ∈ events, hasKey store u e.uid) →
    (upsertTicketmasterEventsForUser jsDate store u events).1 =
      ⟨0, events.length⟩ ∧
    (∀ u' k', hasKey (upsertTicketmasterEventsForUser jsDate store u events).2 u' k' ↔
      hasKey store u' k') := by
  intro events
  induction events with
  | nil =>
    intro store _ _
    exact ⟨rfl, fun u' k' => Iff.rfl⟩
  | cons e rest ih =>
    intro store hv hpres
    have hve : validEvent jsDate e := hv e (List.mem_cons_self e rest)
    have hpe : hasKey store u e.uid := hpres e (List.mem_cons_self e rest)
    rcases upsert_cases jsDate store u e with ⟨hs, _⟩ |
        ⟨_, sU, sL, _, _, ⟨hnone, _⟩ | ⟨r, _, he⟩⟩
    · exact absurd hs hve
    · exact absurd hpe ((findUnique_eq_none_iff store u e.uid).mp hnone)
    · -- updated
      set store' := updateStore store u e.uid (mkBaseData e sU sL) with hstore'
      have hrest : ∀ e' ∈ rest, hasKey store' u e'.uid := fun e' he' =>
        (hasKey_updateStore store u e.uid _ u e'.uid).mpr
          (hpres e' (List.mem_cons_of_mem e he'))
      obtain ⟨ihs, ihk⟩ := ih store'
        (fun e' he' => hv e' (List.mem_cons_of_mem e he')) hrest
      constructor
      · simp only [upsertTicketmasterEventsForUser, he, ihs, List.length_cons]
      · intro u' k'
        simp only [upsertTicketmasterEventsForUser, he]
        rw [ihk u' k', hstore', hasKey_updateStore]

/-- Every batch preserves the `(userId, uid)` uniqueness invariant. -/
theorem batch_noDupKeys (jsDate : DateParse) (u : String) :
    ∀ (events : List NormalizedEvent) (store : Store), NoDupKeys store →
    NoDupKeys (upsertTicketmasterEventsForUser jsDate store u events).2 := by
  intro events
  induction events with
  | nil => intro store h; exact h
  | cons e rest ih =>
    intro store h
    have hstep : NoDupKeys (upsertTicketmasterEvent jsDate store u e).2 := by
      rcases upsert_cases jsDate store u e with ⟨_, he⟩ |
          ⟨_, sU, sL, _, _, ⟨hnone, he⟩ | ⟨r, _, he⟩⟩
      · rw [he]; exact h
      · rw [he]
        unfold NoDupKeys
        rw [List.pairwise_append]
        refine ⟨h, List.pairwise_singleton _ _, ?_⟩
        intro a ha b hb
        rcases List.mem_singleton.mp hb with rfl
        rintro ⟨h1, h2⟩
        exact (findUnique_eq_none_iff store u e.uid).mp hnone
          ⟨a, ha, by simpa [createRow] using h1, by simpa [createRow] using h2⟩
      · rw [he]
        unfold NoDupKeys updateStore
        refine List.Pairwise.map _ ?_ h
        intro a b hab hk
        refine hab ?_
        constructor <;>
        · rcases hk with ⟨h1, h2⟩
          revert h1 h2
          split <;> split <;> simp_all [applyUpdate]
    have : (upsertTicketmasterEventsForUser jsDate store u (e :: rest)).2 =
        (upsertTicketmasterEventsForUser jsDate
          (upsertTicketmasterEvent jsDate store u e).2 u rest).2 := by
      simp only [upsertTicketmasterEventsForUser]
      rcases (upsertTicketmasterEvent jsDate store u e).1 <;> rfl
    rw [this]
    exact ih _ hstep

/-! ### Claim C1 (corrected): idempotent ingestion -/

/-- C1 counterexample: the claim as stated fails when the ingested list
repeats a uid.  Both copies of `demoEvent` are valid (non-empty uid,
parseable dates), yet the first ingestion of the two-element list yields
`inserted = 1, updated = 1`, not `inserted = 2, updated = 0`. -/
theorem c1_duplicate_uid_counterexample :
    validEvent demoDateParse demoEvent ∧
    (upsertTicketmasterEventsForUser demoDateParse [] "user-1"
        [demoEvent, demoEvent]).1 = { inserted := 1, updated := 1 } ∧
    ({ inserted := 1, updated := 1 } : UpsertSummary) ≠ { inserted := 2, updated := 0 } := by
  refine ⟨by decide, by decide, by decide⟩

/-- C1 (amended): ingesting a list of N valid events with pairwise-distinct
uids twice for the same user, starting from a store that holds none of the
`(userId, uid)` keys, yields `inserted = N, updated = 0` on the first call
and `inserted = 0, updated = N` on the second, and the store never holds two
rows with the same `(userId, uid)`. -/
theorem c1_idempotent_ingestion (jsDate : DateParse) (userId : String)
    (events : List NormalizedEvent) (store : Store)
    (hv : ∀ e ∈ events, validEvent jsDate e)
    (hnodup : (events.map NormalizedEvent.uid).Nodup)
    (hfresh : ∀ e ∈ events, ¬ hasKey store userId e.uid)
    (hnd : NoDupKeys store) :
    (upsertTicketmasterEventsForUser jsDate store userId events).1 =
      { inserted := events.length, updated := 0 } ∧
    (upsertTicketmasterEventsForUser jsDate
        (upsertTicketmasterEventsForUser jsDate store userId events).2
        userId events).1 = { inserted := 0, updated := events.length } ∧
    NoDupKeys (upsertTicketmasterEventsForUser jsDate store userId events).2 ∧
    NoDupKeys (upsertTicketmasterEventsForUser jsDate
        (upsertTicketmasterEventsForUser jsDate store userId events).2
        userId events).2 := by
  obtain ⟨h1, hkeys⟩ := batch_fresh jsDate userId events store hv hnodup hfresh
  have hnd1 : NoDupKeys (upsertTicketmasterEventsForUser jsDate store userId events).2 :=
    batch_noDupKeys jsDate userId events store hnd
  have hpres : ∀ e ∈ events,
      hasKey (upsertTicketmasterEventsForUser jsDate store userId events).2 userId e.uid := by
    intro e he
    exact (hkeys userId e.uid).mpr (Or.inr ⟨rfl, List.mem_map.mpr ⟨e, he, rfl⟩⟩)
  obtain ⟨h2, _⟩ := batch_present jsDate userId events
    (upsertTicketmasterEventsForUser jsDate store userId events).2 hv hpres
  exact ⟨h1, h2, hnd1, batch_noDupKeys jsDate userId events _ hnd1⟩

/-- C1 witness: the amended statement at a concrete two-event batch. -/
theorem c1_idempotent_ingestion_witness :
    (upsertTicketmasterEventsForUser demoDateParse [] "user-1"
        [demoEvent, demoEvent2]).1 = { inserted := 2, updated := 0 } ∧
    (upsertTicketmasterEventsForUser demoDateParse
        (upsertTicketmasterEventsForUser demoDateParse [] "user-1"
          [demoEvent, demoEvent2]).2 "user-1"
        [demoEvent, demoEvent2]).1 = { inserted := 0, updated := 2 } := by
  obtain ⟨h1, h2, -, -⟩ := c1_idempotent_ingestion demoDateParse "user-1"
    [demoEvent, demoEvent2] [] (by decide) (by decide)
    (by intro e _; simp [hasKey]) (by simp [NoDupKeys])
  exact ⟨h1, h2⟩

/-! ### Claim C2 (confirmed): skip conditions and complete summaries -/

/-- C2: `upsertTicketmasterEvent` skips exactly the events with an empty uid,
an unparseable `startUtc`, or an unparseable `lastSeenAtUtc` (the embedding
is a total function, so no batch is aborted), and the summary of
`upsertTicketmasterEventsForUser` accounts for every event attempted:
inserted + updated + #skipped = batch length. -/
theorem c2_skip_exactly_and_summary_complete (jsDate : DateParse) :
    (∀ (store : Store) (userId : String) (e : NormalizedEvent),
      ((upsertTicketmasterEvent jsDate store userId e).1 = .skipped ↔
        (e.uid = "" ∨ parseDate jsDate (some e.startUtc) = none ∨
          parseDate jsDate (some e.lastSeenAtUtc) = none))) ∧
    (∀ (store : Store) (userId : String) (events : List NormalizedEvent),
      (upsertTicketmasterEventsForUser jsDate store userId events).1.inserted +
        (upsertTicketmasterEventsForUser jsDate store userId events).1.updated +
        events.countP (fun e => decide (skipCond jsDate e)) = events.length) := by
  constructor
  · intro store userId e
    exact upsert_result_skipped_iff jsDate store userId e
  · intro store userId events
    exact batch_counts jsDate userId events store

/-- C2 witness: a batch with one bad and one good event is fully accounted
for, and the bad event is reported as skipped. -/
theorem c2_skip_witness :
    (upsertTicketmasterEvent demoDateParse [] "user-1" demoBadEvent).1 = .skipped ∧
    (upsertTicketmasterEventsForUser demoDateParse [] "user-1"
        [demoBadEvent, demoEvent]).1.inserted +
      (upsertTicketmasterEventsForUser demoDateParse [] "user-1"
        [demoBadEvent, demoEvent]).1.updated +
      ([demoBadEvent, demoEvent].countP
        (fun e => decide (skipCond demoDateParse e))) = 2 := by
  constructor
  · exact ((c2_skip_exactly_and_summary_complete demoDateParse).1 [] "user-1"
      demoBadEvent).mpr (by decide)
  · exact (c2_skip_exactly_and_summary_complete demoDateParse).2 [] "user-1"
      [demoBadEvent, demoEvent]

/-! ### Claim C3 (corrected): which fields an update writes -/

/-- C3 counterexample: an update is not frame-preserving on `source`.  The
persisted row for `("user-1", "tm-1")` has `source = "manual"`; ingesting a
Ticketmaster event with the same uid updates the row and overwrites its
`source` with `"ticketmaster"`. -/
theorem c3_update_overwrites_source :
    demoRowManual.source = "manual" ∧
    (upsertTicketmasterEvent demoDateParse [demoRowManual] "user-1" demoEvent).1 =
      .updated ∧
    (upsertTicketmasterEvent demoDateParse [demoRowManual] "user-1"
        demoEvent).2.map EventRow.source = ["ticketmaster"] := by
  refine ⟨rfl, by decide, by decide⟩

/-- C3 (amended): when an existing record is found, the update writes the
mutable fields `title`, `startUtc`, `lastSeenAtUtc` and — beyond the claim —
`source`; `description`, `venueName`, `address` and `url` are written only
when the sanitized incoming value is present (a blank incoming value leaves
the stored one unchanged); every remaining column (`userId`, `uid`, `endUtc`,
`timezone`, `lat`, `lng`, `category`, `tag`, `createdByUser`, `city`,
`country`, `status`) is untouched. -/
theorem c3_update_frame (jsDate : DateParse) (store : Store) (userId : String)
    (e : NormalizedEvent) (r : EventRow)
    (hv : validEvent jsDate e)
    (hfound : findUnique store userId e.uid = some r) :
    (upsertTicketmasterEvent jsDate store userId e).1 = .updated ∧
    (∃ sU sL, parseDate jsDate (some e.startUtc) = some sU ∧
      parseDate jsDate (some e.lastSeenAtUtc) = some sL ∧
      (upsertTicketmasterEvent jsDate store userId e).2 =
        updateStore store userId e.uid (mkBaseData e sU sL)) ∧
    (∀ (row : EventRow) (d : BaseData),
      (applyUpdate row d).userId = row.userId ∧
      (applyUpdate row d).uid = row.uid ∧
      (applyUpdate row d).endUtc = row.endUtc ∧
      (applyUpdate row d).timezone = row.timezone ∧
      (applyUpdate row d).lat = row.lat ∧
      (applyUpdate row d).lng = row.lng ∧
      (applyUpdate row d).category = row.category ∧
      (applyUpdate row d).tag = row.tag ∧
      (applyUpdate row d).createdByUser = row.createdByUser ∧
      (applyUpdate row d).city = row.city ∧
      (applyUpdate row d).country = row.country ∧
      (applyUpdate row d).status = row.status ∧
      (applyUpdate row d).source = d.source ∧
      (applyUpdate row d).title = d.title ∧
      (applyUpdate row d).startUtc = d.startUtc ∧
      (applyUpdate row d).lastSeenAtUtc = d.lastSeenAtUtc ∧
      (applyUpdate row d).description = d.description.or row.description ∧
      (applyUpdate row d).venueName = d.venueName.or row.venueName ∧
      (applyUpdate row d).address = d.address.or row.address ∧
      (applyUpdate row d).url = d.url.or row.url) := by
  rcases upsert_cases jsDate store userId e with ⟨hs, _⟩ |
      ⟨_, sU, sL, hsU, hsL, ⟨hnone, _⟩ | ⟨r', hr', he⟩⟩
  · exact absurd hs hv
  · rw [hfound] at hnone; exact Option.noConfusion hnone
  · refine ⟨by rw [he], ⟨sU, sL, hsU, hsL, by rw [he]⟩, ?_⟩
    intro row d
    refine ⟨rfl, rfl, rfl, rfl, rfl, rfl, rfl, rfl, rfl, rfl, rfl, rfl,
      rfl, rfl, rfl, rfl, rfl, rfl, rfl, rfl⟩

/-- C3 witness: the frame theorem applied to the concrete manual row. -/
theorem c3_update_frame_witness :
    (upsertTicketmasterEvent demoDateParse [demoRowManual] "user-1" demoEvent).1 =
      .updated := by
  obtain ⟨h, -, -⟩ := c3_update_frame demoDateParse [demoRowManual] "user-1"
    demoEvent demoRowManual (by decide) (by decide)
  exact h

/-! ### Claim C10 (confirmed): summary bounds -/

/-- C10: the summary counters are non-negative, their sum never exceeds the
batch length, and equals it exactly when no event of the batch meets the skip
condition. -/
theorem c10_summary_bounds (jsDate : DateParse) (store : Store) (userId : String)
    (events : List NormalizedEvent) :
    0 ≤ (upsertTicketmasterEventsForUser jsDate store userId events).1.inserted ∧
    0 ≤ (upsertTicketmasterEventsForUser jsDate store userId events).1.updated ∧
    (upsertTicketmasterEventsForUser jsDate store userId events).1.inserted +
      (upsertTicketmasterEventsForUser jsDate store userId events).1.updated ≤
      events.length ∧
    ((upsertTicketmasterEventsForUser jsDate store userId events).1.inserted +
      (upsertTicketmasterEventsForUser jsDate store userId events).1.updated =
      events.length ↔ ∀ e ∈ events, ¬ skipCond jsDate e) := by
  have hc := batch_counts jsDate userId events store
  refine ⟨Nat.zero_le _, Nat.zero_le _, by omega, ?_⟩
  have hz : events.countP (fun e => decide (skipCond jsDate e)) = 0 ↔
      ∀ e ∈ events, ¬ skipCond jsDate e := by
    rw [List.countP_eq_zero]
    simp
  constructor
  · intro h
    exact hz.mp (by omega)
  · intro h
    have := hz.mpr h
    omega

/-- C10 witness: the bounds at a concrete mixed batch. -/
theorem c10_summary_bounds_witness :
    (upsertTicketmasterEventsForUser demoDateParse [] "user-1"
        [demoBadEvent, demoEvent]).1.inserted +
      (upsertTicketmasterEventsForUser demoDateParse [] "user-1"
        [demoBadEvent, demoEvent]).1.updated ≤ 2 := by
  have h := c10_summary_bounds demoDateParse [] "user-1" [demoBadEvent, demoEvent]
  exact h.2.2.1

/-! ### Claim C4 (corrected): accepted event durations -/

/-- Characterization of a `validateDateString` call that produced a date. -/
theorem validateDateString_date_some (jsDate : DateParse) (pB fB : Int)
    (s : String) (d : Int)
    (h : (validateDateString jsDate pB fB s).date = some d) :
    validateDateString jsDate pB fB s =
      { isValid := true, error := none, date := some d } ∧
    s ≠ "" ∧ jsDate s = some d ∧ pB ≤ d ∧ d ≤ fB := by
  by_cases h0 : s = ""
  · simp [validateDateString, h0] at h
  · rcases hj : jsDate s with _ | t
    · simp [validateDateString, h0, hj] at h
    · by_cases h1 : t < pB
      · simp [validateDateString, h0, hj, h1] at h
      · by_cases h2 : fB < t
        · simp [validateDateString, h0, hj, h1, h2] at h
        · have hd : t = d := by simpa [validateDateString, h0, hj, h1, h2] using h
          subst hd
          refine ⟨?_, h0, rfl, le_of_not_lt h1, le_of_not_lt h2⟩
          simp [validateDateString, h0, hj, h1, h2]

/-- Reduction of `validateEventDuration` once both date strings are known to
validate. -/
theorem validateEventDuration_reduce (jsDate : DateParse) (pB fB : Int)
    (s eu : String) (sd ed : Int)
    (hsf : validateDateString jsDate pB fB s =
      { isValid := true, error := none, date := some sd })
    (hef : validateDateString jsDate pB fB eu =
      { isValid := true, error := none, date := some ed })
    (hne : eu ≠ "") :
    validateEventDuration jsDate pB fB s (some eu) =
      (if ed ≤ sd then
        { isValid := false, error := some "End date must be after start date",
          durationMinutes := none }
       else if 10080 < (ed - sd) / 60000 then
        { isValid := false,
          error := some ("Event duration too long: " ++
            toString ((ed - sd) / 60000 / 60) ++ " hours (max 168 hours)"),
          durationMinutes := none }
       else if (ed - sd) / 60000 < 1 then
        { isValid := false,
          error := some "Event duration too short: must be at least 1 minute",
          durationMinutes := none }
       else { isValid := true, error := none, durationMinutes := some ((ed - sd) / 60000) }) := by
  simp only [validateEventDuration, hsf, hef, hne, Bool.not_true,
    Bool.false_eq_true, if_false, ite_false, Option.getD_some]

/-- C4 counterexample: a pair of in-range dates exactly one minute apart is
accepted by `validateEventDuration`, although one minute is outside the open
interval `(1 minute, 168 h]` demanded by the claim. -/
theorem c4_one_minute_counterexample :
    (validateDateString demoDateParse demoPastBound demoFutureBound
      "2024-06-01T10:00:00Z").isValid = true ∧
    (validateDateString demoDateParse demoPastBound demoFutureBound
      "2024-06-01T10:01:00Z").isValid = true ∧
    ((validateDateString demoDateParse demoPastBound demoFutureBound
        "2024-06-01T10:01:00Z").date.getD 0 -
      (validateDateString demoDateParse demoPastBound demoFutureBound
        "2024-06-01T10:00:00Z").date.getD 0) = 60000 ∧
    (validateEventDuration demoDateParse demoPastBound demoFutureBound
      "2024-06-01T10:00:00Z" (some "2024-06-01T10:01:00Z")).isValid = true := by
  refine ⟨by decide, by decide, by decide, by decide⟩

/-- C4 (amended): for start and end strings that both parse to valid in-range
dates, `validateEventDuration` accepts the pair exactly when the end is
strictly after the start and the raw duration lies in the half-open interval
`[1 minute, 168 hours + 1 minute)` in milliseconds — equivalently, the
floored whole-minute duration lies in `[1, 10080]`.  A rejected pair always
carries an error (nothing is silently clamped). -/
theorem c4_duration_accept_iff (jsDate : DateParse) (pB fB : Int)
    (s eu : String) (sd ed : Int)
    (hs : (validateDateString jsDate pB fB s).date = some sd)
    (he : (validateDateString jsDate pB fB eu).date = some ed) :
    ((validateEventDuration jsDate pB fB s (some eu)).isValid = true ↔
      (sd < ed ∧ 60000 ≤ ed - sd ∧ ed - sd ≤ 604859999)) ∧
    ((validateEventDuration jsDate pB fB s (some eu)).isValid = false →
      (validateEventDuration jsDate pB fB s (some eu)).error ≠ none) := by
  obtain ⟨hsf, -, -, -, -⟩ := validateDateString_date_some jsDate pB fB s sd hs
  obtain ⟨hef, hne, -, -, -⟩ := validateDateString_date_some jsDate pB fB eu ed he
  rw [validateEventDuration_reduce jsDate pB fB s eu sd ed hsf hef hne]
  by_cases h1 : ed ≤ sd
  · rw [if_pos h1]
    refine ⟨⟨fun h => by simp at h, fun h => absurd h1 (not_le.mpr h.1)⟩,
      fun _ => by simp⟩
  · rw [if_neg h1]
    by_cases h2 : 10080 < (ed - sd) / 60000
    · rw [if_pos h2]
      refine ⟨⟨fun h => by simp at h, fun h => ?_⟩, fun _ => by simp⟩
      omega
    · rw [if_neg h2]
      by_cases h3 : (ed - sd) / 60000 < 1
      · rw [if_pos h3]
        refine ⟨⟨fun h => by simp at h, fun h => ?_⟩, fun _ => by simp⟩
        omega
      · rw [if_neg h3]
        refine ⟨⟨fun _ => ⟨not_le.mp h1, by omega, by omega⟩, fun _ => rfl⟩,
          fun h => by simp at h⟩

/-- C4 witness: a one-day event is accepted. -/
theorem c4_duration_accept_iff_witness :
    (validateEventDuration demoDateParse demoPastBound demoFutureBound
      "2024-06-01T10:00:00Z" (some "2024-06-02T10:00:00Z")).isValid = true := by
  exact ((c4_duration_accept_iff demoDateParse demoPastBound demoFutureBound
    "2024-06-01T10:00:00Z" "2024-06-02T10:00:00Z" 1717236000000 1717322400000
    (by decide) (by decide)).1).mpr (by decide)

/-! ### Claim C7 (confirmed): URL canonicalization -/

/-- C7: `validateUrl` on `https://example.com:443/path/?b=2&a=1` strips the
default port, drops the trailing slash and sorts the query by key. -/
theorem c7_url_canonicalization :
    validateUrl "https://example.com:443/path/?b=2&a=1" =
      { isValid := true, error := none,
        normalizedUrl := some "https://example.com/path?a=1&b=2" } := by
  decide

/-! ### Claim C8 (confirmed): coordinate rejection -/

/-- C8: with the default options, `validateCoordinates` rejects any defined
pair with a component out of `[-90, 90] × [-180, 180]`, and rejects the exact
pair `(0, 0)` as the known-invalid ocean sentinel. -/
theorem c8_coordinate_rejection (lat lng : ℚ) :
    ((lat < -90 ∨ 90 < lat ∨ lng < -180 ∨ 180 < lng) →
      (validateCoordinates (some lat) (some lng) false 6 true).isValid = false) ∧
    (lat = 0 ∧ lng = 0 →
      (validateCoordinates (some lat) (some lng) false 6 true).isValid = false) := by
  constructor
  · intro h
    simp only [validateCoordinates]
    by_cases h1 : lat < -90 ∨ 90 < lat
    · rw [if_pos h1]
    · rw [if_neg h1]
      have h2 : lng < -180 ∨ 180 < lng := by tauto
      rw [if_pos h2]
  · rintro ⟨rfl, rfl⟩
    decide

/-- C8 witness: the two concrete rejections named by the claim,
`(0, 0)` (ocean sentinel) and `(91, 0)` (out of range). -/
theorem c8_coordinate_rejection_witness :
    (validateCoordinates (some 91) (some 0) false 6 true).isValid = false ∧
    (validateCoordinates (some 0) (some 0) false 6 true).isValid = false := by
  exact ⟨(c8_coordinate_rejection 91 0).1 (by norm_num),
    (c8_coordinate_rejection 0 0).2 ⟨rfl, rfl⟩⟩

/-! ### Claim C5 (confirmed): start-date distance policy -/

theorem isEmpty_false_of_mem {α : Type} {l : List α} {x : α} (h : x ∈ l) :
    l.isEmpty = false := by
  cases l
  · cases h
  · rfl

theorem durationCheck_errors_field (jsDate : DateParse) (e : ValidatedEvent) :
    ∀ err ∈ (durationCheck jsDate e).1, err.field = "endUtc" := by
  intro err herr
  unfold durationCheck at herr
  split at herr
  case isFalse => simp_all
  case isTrue =>
    split at herr
    case h_2 => simp_all
    case h_1 st en heq1 heq2 =>
      dsimp only [] at herr
      by_cases hc1 : en - st < 0
      · rw [if_pos hc1] at herr; simp_all
      · rw [if_neg hc1] at herr
        by_cases hc2 : 604800000 < en - st
        · rw [if_pos hc2] at herr; simp_all
        · rw [if_neg hc2] at herr
          by_cases hc3 : en - st < 61200
          · rw [if_pos hc3] at herr; simp_all
          · rw [if_neg hc3] at herr; simp_all

theorem coordsCheck_errors_field (e : ValidatedEvent) :
    ∀ err ∈ coordsCheck e, err.field = "coordinates" := by
  intro err herr
  unfold coordsCheck at herr
  split at herr
  all_goals simp_all

theorem urlProtocolCheck_errors_field (e : ValidatedEvent) :
    ∀ err ∈ urlProtocolCheck e, err.field = "url" := by
  intro err herr
  unfold urlProtocolCheck at herr
  repeat' split at herr
  all_goals simp_all

theorem dateCheck_too_far_past (jsDate : DateParse) (now : Int) (e : ValidatedEvent)
    (st : Int) (hp : jsDate e.startUtc = some st)
    (h1 : st - now < -365 * 86400000) :
    dateCheck jsDate now e =
      ([{ field := "startUtc", code := "too_far_past",
          message := "Event start date is more than 1 year in the past" }], []) := by
  have h1' : st - now < -31536000000 := by omega
  have h2' : ¬ ((63072000000 : Int) < st - now) := by omega
  simp [dateCheck, hp, h1', h2']

theorem dateCheck_past_band (jsDate : DateParse) (now : Int) (e : ValidatedEvent)
    (st : Int) (hp : jsDate e.startUtc = some st)
    (h1 : -365 * 86400000 ≤ st - now) (h2 : st - now < -30 * 86400000) :
    dateCheck jsDate now e =
      ([], [{ field := "startUtc", code := "past_event",
              message := "Event start date is in the past",
              suggestion := some "This may be a completed event" }]) := by
  have h1' : ¬ (st - now < -31536000000) := by omega
  have h2' : st - now < -2592000000 := by omega
  have h3' : ¬ ((63072000000 : Int) < st - now) := by omega
  simp [dateCheck, hp, h1', h2', h3']

theorem dateCheck_far_future (jsDate : DateParse) (now : Int) (e : ValidatedEvent)
    (st : Int) (hp : jsDate e.startUtc = some st)
    (h1 : 730 * 86400000 < st - now) :
    dateCheck jsDate now e =
      ([], [{ field := "startUtc", code := "far_future",
              message := "Event start date is more than 2 years in the future",
              suggestion := some "Please verify the date is correct" }]) := by
  have h1' : (63072000000 : Int) < st - now := by omega
  have h2' : ¬ (st - now < -31536000000) := by omega
  have h3' : ¬ (st - now < -2592000000) := by omega
  simp [dateCheck, hp, h1', h2', h3']

/-- C5: for a schema-valid event whose start parses, business-logic
validation makes a start more than 365 days in the past a `startUtc` error
(rejecting the event in `validateEventDataDetailed`), while a start between
30 and 365 days in the past, or more than 730 days in the future, yields only
a warning (`past_event` / `far_future`) and no `startUtc` error at all.  The
day thresholds are expressed in milliseconds (`-365·86400000`,
`-30·86400000`, `730·86400000`), exactly as the code's day arithmetic
evaluates on integer timestamps. -/
theorem c5_date_distance_policy (jsDate : DateParse) (now : Int)
    (e : ValidatedEvent) (st : Int) (hp : jsDate e.startUtc = some st) :
    (st - now < -365 * 86400000 →
      (∃ err ∈ (performBusinessLogicValidation jsDate now e).1,
        err.field = "startUtc" ∧ err.code = "too_far_past") ∧
      (validateEventDataDetailed jsDate now e).isValid = false) ∧
    (-365 * 86400000 ≤ st - now → st - now < -30 * 86400000 →
      (∃ w ∈ (performBusinessLogicValidation jsDate now e).2,
        w.field = "startUtc" ∧ w.code = "past_event") ∧
      (∀ err ∈ (performBusinessLogicValidation jsDate now e).1,
        err.field ≠ "startUtc")) ∧
    (730 * 86400000 < st - now →
      (∃ w ∈ (performBusinessLogicValidation jsDate now e).2,
        w.field = "startUtc" ∧ w.code = "far_future") ∧
      (∀ err ∈ (performBusinessLogicValidation jsDate now e).1,
        err.field ≠ "startUtc")) := by
  have hnostart : (dateCheck jsDate now e).1 = [] →
      ∀ err ∈ (performBusinessLogicValidation jsDate now e).1,
        err.field ≠ "startUtc" := by
    intro hd err herr
    simp only [performBusinessLogicValidation, List.mem_append] at herr
    rcases herr with ((h | h) | h) | h
    · rw [durationCheck_errors_field jsDate e err h]; decide
    · rw [hd] at h; cases h
    · rw [coordsCheck_errors_field e err h]; decide
    · rw [urlProtocolCheck_errors_field e err h]; decide
  refine ⟨fun h1 => ?_, fun h1 h2 => ?_, fun h1 => ?_⟩
  · have hd := dateCheck_too_far_past jsDate now e st hp h1
    have hmem :
        ({ field := "startUtc", code := "too_far_past",
           message := "Event start date is more than 1 year in the past" } : VError) ∈
          (performBusinessLogicValidation jsDate now e).1 := by
      simp only [performBusinessLogicValidation, List.mem_append, hd]
      simp
    refine ⟨⟨_, hmem, rfl, rfl⟩, ?_⟩
    simp only [validateEventDataDetailed]
    exact isEmpty_false_of_mem hmem
  · have hd := dateCheck_past_band jsDate now e st hp h1 h2
    constructor
    · refine ⟨{ field := "startUtc", code := "past_event",
                message := "Event start date is in the past",
                suggestion := some "This may be a completed event" }, ?_, rfl, rfl⟩
      simp only [performBusinessLogicValidation, List.mem_append, hd]
      simp
    · exact hnostart (by rw [hd])
  · have hd := dateCheck_far_future jsDate now e st hp h1
    constructor
    · refine ⟨{ field := "startUtc", code := "far_future",
                message := "Event start date is more than 2 years in the future",
                suggestion := some "Please verify the date is correct" }, ?_, rfl, rfl⟩
      simp only [performBusinessLogicValidation, List.mem_append, hd]
      simp
    · exact hnostart (by rw [hd])

/-- C5 witness: a start 366 days in the past is rejected; one 60 days in the
past and one 800 days in the future only warn. -/
theorem c5_date_distance_policy_witness :
    (validateEventDataDetailed demoDateParse (demoNow + 366 * 86400000)
      demoValidatedEvent).isValid = false ∧
    (∃ w ∈ (performBusinessLogicValidation demoDateParse (demoNow + 60 * 86400000)
      demoValidatedEvent).2, w.field = "startUtc" ∧ w.code = "past_event") ∧
    (∃ w ∈ (performBusinessLogicValidation demoDateParse (demoNow - 800 * 86400000)
      demoValidatedEvent).2, w.field = "startUtc" ∧ w.code = "far_future") := by
  refine ⟨?_, ?_, ?_⟩
  · exact ((c5_date_distance_policy demoDateParse (demoNow + 366 * 86400000)
      demoValidatedEvent demoNow (by decide)).1 (by decide)).2
  · exact (((c5_date_distance_policy demoDateParse (demoNow + 60 * 86400000)
      demoValidatedEvent demoNow (by decide)).2.1 (by decide)) (by decide)).1
  · exact ((c5_date_distance_policy demoDateParse (demoNow - 800 * 86400000)
      demoValidatedEvent demoNow (by decide)).2.2 (by decide)).1

/-! ### Claim C6 (code bug): paired-coordinate completeness -/

/-- C6: the incomplete-coordinates check uses JavaScript truthiness, so a
schema-valid event with `lat = 0` and `lng` undefined produces **no**
`incomplete_coordinates` error (the claim and the spec's both-or-neither
invariant require one), while an event with both `lat = 0` and `lng = 5`
present produces the error even though both coordinates are provided. -/
theorem c6_incomplete_coordinates_truthiness :
    (∀ err ∈ (performBusinessLogicValidation demoDateParse demoNow
        { demoValidatedEvent with lat := some 0, lng := none }).1,
      ¬ err.code = "incomplete_coordinates") ∧
    (∃ err ∈ (performBusinessLogicValidation demoDateParse demoNow
        { demoValidatedEvent with lat := some 0, lng := some 5 }).1,
      err.code = "incomplete_coordinates") := by
  decide

/-! ### Claim C9 (confirmed): adapters degrade to empty lists -/

/-- C9: for every input and every fetch outcome the two adapters return a
normal (`.ok`) result — never a propagated exception — and any failure
environment (missing/empty API key, thrown exception, non-2xx response)
yields the empty list. -/
theorem c9_fetchers_never_throw :
    (∀ (apiKey : Option String) (outcome : FetchOutcome TMResponse)
        (city : String) (keyword : Option String),
      (∃ events, fetchTicketmasterEvents apiKey outcome city keyword = .ok events) ∧
      (fetchFailure apiKey outcome →
        fetchTicketmasterEvents apiKey outcome city keyword = .ok [])) ∧
    (∀ (apiKey : Option String) (outcome : FetchOutcome EBResponse)
        (keyword : Option String),
      (∃ events, fetchEventbriteEvents apiKey outcome keyword = .ok events) ∧
      (fetchFailure apiKey outcome →
        fetchEventbriteEvents apiKey outcome keyword = .ok [])) := by
  constructor
  · intro apiKey outcome city keyword
    rcases apiKey with _ | key
    · exact ⟨⟨[], rfl⟩, fun _ => rfl⟩
    · by_cases hk : key = ""
      · subst hk
        exact ⟨⟨[], rfl⟩, fun _ => rfl⟩
      · rcases outcome with _ | s | ⟨data, seenAt⟩
        · refine ⟨⟨[], ?_⟩, fun _ => ?_⟩ <;> simp [fetchTicketmasterEvents, hk]
        · refine ⟨⟨[], ?_⟩, fun _ => ?_⟩ <;> simp [fetchTicketmasterEvents, hk]
        · refine ⟨⟨data.events.map (normalizeTicketmasterEvent seenAt), ?_⟩, ?_⟩
          · simp [fetchTicketmasterEvents, hk]
          · rintro (h | h | h | ⟨s, h⟩) <;> simp_all
  · intro apiKey outcome keyword
    rcases apiKey with _ | key
    · exact ⟨⟨[], rfl⟩, fun _ => rfl⟩
    · by_cases hk : key = ""
      · subst hk
        exact ⟨⟨[], rfl⟩, fun _ => rfl⟩
      · rcases outcome with _ | s | ⟨data, seenAt⟩
        · refine ⟨⟨[], ?_⟩, fun _ => ?_⟩ <;> simp [fetchEventbriteEvents, hk]
        · refine ⟨⟨[], ?_⟩, fun _ => ?_⟩ <;> simp [fetchEventbriteEvents, hk]
        · refine ⟨⟨data.events.map (normalizeEventbriteEvent seenAt), ?_⟩, ?_⟩
          · simp [fetchEventbriteEvents, hk]
          · rintro (h | h | h | ⟨s, h⟩) <;> simp_all

/-- C9 witness: a missing Ticketmaster key and a thrown Eventbrite fetch both
produce `.ok []`. -/
theorem c9_fetchers_never_throw_witness :
    fetchTicketmasterEvents none .throws "Dallas" (some "music") = .ok [] ∧
    fetchEventbriteEvents (some "eb-key") .throws (some "music") = .ok [] := by
  exact ⟨(c9_fetchers_never_throw.1 none .throws "Dallas" (some "music")).2 (Or.inl rfl),
    (c9_fetchers_never_throw.2 (some "eb-key") .throws (some "music")).2
      (Or.inr (Or.inr (Or.inl rfl)))⟩
